import Mathlib

/-!
# RDMA dummy device plugin: shallow embedding of `main.go`

The Go program implements the kubelet device-plugin interface for a pool of
synthetic SR-IOV devices.  This file embeds the four RPC handlers of
`Plugin` (`GetDevicePluginOptions`, `PreStartContainer`, `ListAndWatch`,
`Allocate`) as Lean functions and proves properties about them.

Conventions of the embedding:

* a Go pointer that may be `nil` is an `Option`; a slice is a `List`;
* a method with receiver `p *Plugin` takes the plugin state and returns it
  again inside its reply (explicit state passing);
* a Go `error` result is `Option Error`, `none` standing for `nil`;
* `for i := 0; i < n; i++ { body }` is `forLoop n body`;
* calls to `log.Println` only write to the process log and are left out.
-/

namespace RdmaDummy

/-! ## Constants (`main.go`, lines 20-23) -/

/-- Number of synthetic devices advertised by the plugin. -/
def dummyDeviceCount : Nat := 10000

/-- Host directory exposed to every container. -/
def rdmaDeviceDir : String := "/dev/infiniband"

/-! ## Messages of the device-plugin API used by the handlers -/

/-- Health of a device as reported to the manager (`pluginapi.Healthy`,
`pluginapi.Unhealthy`). -/
inductive Health where
  | Healthy
  | Unhealthy
  deriving DecidableEq, Repr

/-- Device message of the API: `pluginapi.Device`. -/
structure Device where
  ID : String
  Health : Health
  deriving DecidableEq, Repr

/-- Message streamed by `ListAndWatch`: a slice of device pointers. -/
structure ListAndWatchResponse where
  Devices : List (Option Device)
  deriving DecidableEq, Repr

/-- Exposure of one host device node: `pluginapi.DeviceSpec`. -/
structure DeviceSpec where
  ContainerPath : String := ""
  HostPath : String := ""
  Permissions : String := ""
  deriving DecidableEq, Repr

/-- Mount of a host directory: `pluginapi.Mount`. -/
structure Mount where
  ContainerPath : String := ""
  HostPath : String := ""
  ReadOnly : Bool := false
  deriving DecidableEq, Repr

/-- Request for one container: the device ids the manager wants bound. -/
structure ContainerAllocateRequest where
  DevicesIDs : List String := []
  deriving DecidableEq, Repr

/-- Batch of container requests: `pluginapi.AllocateRequest`. -/
structure AllocateRequest where
  ContainerRequests : List (Option ContainerAllocateRequest) := []
  deriving DecidableEq, Repr

/-- Adjustment for one container: `pluginapi.ContainerAllocateResponse`.
A Go map is a list of key/value pairs; the zero value of every field is the
empty list. -/
structure ContainerAllocateResponse where
  Envs : List (String × String) := []
  Mounts : List Mount := []
  Devices : List DeviceSpec := []
  Annotations : List (String × String) := []
  deriving DecidableEq, Repr

/-- Batch of adjustments: `pluginapi.AllocateResponse`. -/
structure AllocateResponse where
  ContainerResponses : List (Option ContainerAllocateResponse) := []
  deriving DecidableEq, Repr

/-- Capabilities message: `pluginapi.DevicePluginOptions`. -/
structure DevicePluginOptions where
  PreStartRequired : Bool := false
  deriving DecidableEq, Repr

/-- Request of the pre-start hook: the device ids of the container. -/
structure PreStartContainerRequest where
  DevicesIDs : List String := []
  deriving DecidableEq, Repr

/-- Acknowledgment of the pre-start hook; the message has no field. -/
structure PreStartContainerResponse where
  deriving DecidableEq, Repr

/-- The empty request message `pluginapi.Empty`. -/
structure Empty where
  deriving DecidableEq, Repr

/-- The `context.Context` argument of the unary handlers; no handler reads
it. -/
structure Context where
  deriving DecidableEq, Repr

/-- A non-nil Go `error` value. -/
structure Error where
  msg : String
  deriving DecidableEq, Repr

/-! ## Plugin state (`main.go`, lines 26-28) -/

/-- The plugin holds one field, the channel `stop chan bool`.  The channel
is represented by the values that are delivered on it, in order of arrival;
a `nil` channel, or one on which nobody ever sends, delivers none.  The
program never closes the channel. -/
structure Plugin where
  stop : List Bool
  deriving DecidableEq, Repr

/-- Result of a unary handler: the plugin state after the call, the
returned message pointer and the returned error. -/
structure Reply (α : Type) where
  plugin : Plugin
  resp : Option α
  err : Option Error

/-! ## Control structure -/

/-- Counting loop `for i := 0; i < n; i++ { s = body i s }`. -/
def forLoop {σ : Type} (n : Nat) (body : Nat → σ → σ) (init : σ) : σ :=
  (List.range n).foldl (fun s i => body i s) init

/-! ## Unary handlers -/

/-- Handler `GetDevicePluginOptions` (`main.go`, lines 49-53). -/
def GetDevicePluginOptions (p : Plugin) (_ctx : Context) (_e : Option Empty) :
    Reply DevicePluginOptions :=
  { plugin := p, resp := some { PreStartRequired := false }, err := none }

/-- Handler `PreStartContainer` (`main.go`, lines 58-61). -/
def PreStartContainer (p : Plugin) (_ctx : Context)
    (_r : Option PreStartContainerRequest) : Reply PreStartContainerResponse :=
  { plugin := p, resp := some {}, err := none }

/-- Getter `r.GetContainerRequests()` generated for the API message: the
field of a non-nil request, the nil slice for a nil request. -/
def GetContainerRequests (r : Option AllocateRequest) :
    List (Option ContainerAllocateRequest) :=
  match r with
  | some m => m.ContainerRequests
  | none => []

/-- Handler `Allocate` (`main.go`, lines 95-118).  The slice of responses is
made with `requestLen` nil entries and entry `i` is assigned in iteration
`i`; every index assigned is below the length of the slice. -/
def Allocate (p : Plugin) (_ctx : Context) (r : Option AllocateRequest) :
    Reply AllocateResponse :=
  let requestLen := (GetContainerRequests r).length
  let containerResponses : List (Option ContainerAllocateResponse) :=
    List.replicate requestLen none
  let containerResponses := forLoop requestLen (fun i crs =>
    let deviceSpec : List DeviceSpec :=
      [{ HostPath := rdmaDeviceDir, ContainerPath := rdmaDeviceDir, Permissions := "rwm" }]
    crs.set i (some { Devices := deviceSpec })) containerResponses
  let response : AllocateResponse := { ContainerResponses := containerResponses }
  { plugin := p, resp := some response, err := none }

/-! ## The watch stream -/

/-- Result of `fmt.Sprintf("SRIOV-Device-%d", i)` for a loop index `i`, which
is never negative: the prefix followed by the decimal digits of `i`. -/
def Sprintf_SRIOV_Device (i : Nat) : String :=
  "SRIOV-Device-" ++ Nat.repr i

/-- Server side of the stream given to `ListAndWatch`.  The only method the
handler calls is `Send`; `sendErr k` is the error that the call number `k`
of `Send` (counting from zero) returns. -/
structure Stream where
  sendErr : Nat → Option Error

/-- Call `s.Send(m)`: the message is appended to the messages handed to the
stream so far, and the error of this call is returned.  The stream marshals
the message during the call, so what is recorded is the value the devices
have at that moment; a later write through the same pointers does not alter
it. -/
def Send (s : Stream) (sent : List ListAndWatchResponse) (m : ListAndWatchResponse) :
    List ListAndWatchResponse × Option Error :=
  (sent ++ [m], s.sendErr sent.length)

/-- Where control is once the delivered stop signals are used up. -/
inductive Control where
  | blocked
  | returned (err : Option Error)
  deriving DecidableEq, Repr

/-- Observable result of running `ListAndWatch`: the messages handed to
`Send`, in order, and where control is. -/
structure Outcome where
  sends : List ListAndWatchResponse
  control : Control

/-- Statement `devices[i].Health = health` (`main.go`, line 84).  The entry
is a pointer filled by the first loop, see `initialDevices_eq`. -/
def setHealth (health : Health) (i : Nat) (devices : List (Option Device)) :
    List (Option Device) :=
  match devices[i]? with
  | some (some d) => devices.set i (some { d with Health := health })
  | _ => devices

/-- Lines 67-74: the slice of `dummyDeviceCount` device pointers, filled by
the first loop. -/
def initialDevices : List (Option Device) :=
  let devices : List (Option Device) := List.replicate dummyDeviceCount none
  forLoop dummyDeviceCount (fun i devices =>
    devices.set i (some { ID := Sprintf_SRIOV_Device i, Health := Health.Healthy })) devices

/-- Body of `case <-p.stop:` (`main.go`, lines 79-86): every device is
marked with the local `health` and the slice is sent; the result of `Send` is
discarded. -/
def onStop (s : Stream) (st : List (Option Device) × List ListAndWatchResponse) :
    List (Option Device) × List ListAndWatchResponse :=
  let health := Health.Unhealthy
  let devices := forLoop dummyDeviceCount (fun i devices => setHealth health i devices) st.1
  let sent := (Send s st.2 { Devices := devices }).1
  (devices, sent)

/-- Handler `ListAndWatch` (`main.go`, lines 66-90).  The initial snapshot is
sent and its result discarded; then the endless `for { select { ... } }` runs
its single case once per value received from `p.stop`.  The loop has no
`break` and the function no `return`, so when the delivered values are used
up the handler is blocked in `select`. -/
def ListAndWatch (p : Plugin) (_e : Option Empty) (s : Stream) : Outcome :=
  let devices := initialDevices
  let sent := (Send s [] { Devices := devices }).1
  let st := p.stop.foldl (fun st _ => onStop s st) (devices, sent)
  { sends := st.2, control := Control.blocked }

/-! ## Snapshots used in the statements -/

/-- Snapshot of `dummyDeviceCount` devices, device `i` named
`SRIOV-Device-<i>`, all with health `h`. -/
def snapshot (h : Health) : ListAndWatchResponse :=
  { Devices := (List.range dummyDeviceCount).map
      (fun i => some { ID := Sprintf_SRIOV_Device i, Health := h }) }

/-- The single exposure every container response carries. -/
def fixedResponse : ContainerAllocateResponse :=
  { Devices := [{ HostPath := "/dev/infiniband", ContainerPath := "/dev/infiniband",
                  Permissions := "rwm" }] }

/-- The device `id` is listed in the inventory `I` with health `Healthy`. -/
def healthyIn (I : List Device) (id : String) : Prop :=
  ∃ d ∈ I, d.ID = id ∧ d.Health = Health.Healthy

/-- Device ids named by a batch, over all its container requests. -/
def requestedIDs (r : Option AllocateRequest) : List String :=
  (GetContainerRequests r).flatMap (fun c =>
    match c with
    | some c => c.DevicesIDs
    | none => [])

/-- Value of a decimal digit character. -/
def digitValue (c : Char) : Nat := c.toNat - 48

/-- Number denoted by a string of decimal digits, read left to right. -/
def decodeDecimal (cs : List Char) : Nat :=
  cs.foldl (fun acc c => acc * 10 + digitValue c) 0

/-! ## Concrete inputs used to instantiate the theorems -/

/-- Inventory of three devices, the last one Unhealthy. -/
def exInventory : List Device :=
  [{ ID := "d0", Health := Health.Healthy },
   { ID := "d1", Health := Health.Healthy },
   { ID := "d2", Health := Health.Unhealthy }]

/-- Batch of two container requests, naming `d0` and then `d1`, `d2`. -/
def exBatch : Option AllocateRequest :=
  some { ContainerRequests :=
    [some { DevicesIDs := ["d0"] }, some { DevicesIDs := ["d1", "d2"] }] }

/-- Request message of two container requests naming `d0` and then `d1`,
`d0`. -/
def exHealthyRequest : AllocateRequest :=
  { ContainerRequests :=
      [some { DevicesIDs := ["d0"] }, some { DevicesIDs := ["d1", "d0"] }] }

/-- Batch of two container requests that names Healthy devices only. -/
def exHealthyBatch : Option AllocateRequest :=
  some { ContainerRequests :=
    [some { DevicesIDs := ["d0"] }, some { DevicesIDs := ["d1", "d0"] }] }

/-- Plugin whose stop channel delivers no value. -/
def exIdlePlugin : Plugin := { stop := [] }

/-- Plugin whose stop channel delivers one value. -/
def exStoppedOnce : Plugin := { stop := [true] }

/-- Plugin whose stop channel delivers two values. -/
def exStoppedTwice : Plugin := { stop := [true, true] }

/-- Stream every `Send` of which succeeds. -/
def okStream : Stream := { sendErr := fun _ => none }

/-- Stream whose first `Send` fails. -/
def brokenStream : Stream :=
  { sendErr := fun k => if k = 0 then some { msg := "transport is closing" } else none }

/-! ## Lemmas on the loops -/

theorem forLoop_succ {σ : Type} (n : Nat) (body : Nat → σ → σ) (init : σ) :
    forLoop (n + 1) body init = body n (forLoop n body init) := by
  simp [forLoop, List.range_succ, List.foldl_append]

theorem forLoop_set_length {α : Type} (f : Nat → α) (n : Nat) (init : List α) :
    (forLoop n (fun i xs => xs.set i (f i)) init).length = init.length := by
  induction n with
  | zero => simp [forLoop]
  | succ n ih => rw [forLoop_succ]; simp [ih]

theorem forLoop_set_getElem? {α : Type} (f : Nat → α) (n : Nat) (init : List α) (k : Nat) :
    (forLoop n (fun i xs => xs.set i (f i)) init)[k]? =
      if k < n ∧ k < init.length then some (f k) else init[k]? := by
  induction n with
  | zero => simp [forLoop]
  | succ n ih =>
    rw [forLoop_succ, List.getElem?_set, forLoop_set_length, ih]
    by_cases hk : n = k
    · subst hk
      by_cases hl : n < init.length
      · simp [hl]
      · simp [hl, List.getElem?_eq_none (Nat.le_of_not_lt hl)]
    · have : k < n + 1 ↔ k < n := by omega
      simp [hk, this]

theorem forLoop_fill {α : Type} (f : Nat → α) (n : Nat) (a : α) :
    forLoop n (fun i xs => xs.set i (f i)) (List.replicate n a) = (List.range n).map f := by
  apply List.ext_getElem?
  intro k
  rw [forLoop_set_getElem?]
  by_cases hk : k < n
  · simp [hk, List.getElem?_range]
  · have hk2 : n ≤ k := Nat.le_of_not_lt hk
    have h1 : (List.replicate n a)[k]? = none :=
      List.getElem?_eq_none (by simpa using hk2)
    have h2 : (List.range n)[k]? = none :=
      List.getElem?_eq_none (by simpa using hk2)
    simp [hk, h1, h2]

/-! ## Lemmas on `Allocate` -/

theorem Allocate_eq (p : Plugin) (ctx : Context) (r : Option AllocateRequest) :
    Allocate p ctx r =
      { plugin := p,
        resp := some { ContainerResponses :=
          List.replicate (GetContainerRequests r).length (some fixedResponse) },
        err := none } := by
  simp only [Allocate, forLoop_fill]
  have h : ∀ n : Nat, (List.range n).map (fun _ => some fixedResponse) =
      List.replicate n (some fixedResponse) := by
    intro n
    apply List.ext_getElem?
    intro k
    by_cases hk : k < n
    · simp [hk, List.getElem?_range, List.getElem?_replicate]
    · have hk2 : n ≤ k := Nat.le_of_not_lt hk
      have h1 : (List.replicate n (some fixedResponse))[k]? = none :=
        List.getElem?_eq_none (by simpa using hk2)
      have h2 : (List.range n)[k]? = none :=
        List.getElem?_eq_none (by simpa using hk2)
      simp [h1, h2]
  have hf : (fun _ : Nat => some
      ({ Devices := [{ HostPath := rdmaDeviceDir, ContainerPath := rdmaDeviceDir,
                       Permissions := "rwm" }] } : ContainerAllocateResponse)) =
      (fun _ : Nat => some fixedResponse) := rfl
  rw [hf, h]

/-! ## Lemmas on the decimal rendering of device numbers -/

theorem digitValue_digitChar (k : Nat) (h : k < 10) : digitValue (Nat.digitChar k) = k := by
  interval_cases k <;> rfl

theorem foldl_toDigitsCore (fuel : Nat) : ∀ (n : Nat) (ds : List Char), n < fuel →
    (Nat.toDigitsCore 10 fuel n ds).foldl (fun acc c => acc * 10 + digitValue c) 0 =
      ds.foldl (fun acc c => acc * 10 + digitValue c) n := by
  induction fuel with
  | zero => intro n ds h; omega
  | succ fuel ih =>
    intro n ds h
    have hd : digitValue (Nat.digitChar (n % 10)) = n % 10 :=
      digitValue_digitChar _ (Nat.mod_lt _ (by decide))
    simp only [Nat.toDigitsCore]
    split_ifs with h0
    · have hn : n % 10 = n := by omega
      simp only [List.foldl_cons, Nat.zero_mul, Nat.zero_add, hd]
      rw [hn]
    · have hlt : n / 10 < fuel := by omega
      rw [ih (n / 10) _ hlt]
      have hn : n / 10 * 10 + n % 10 = n := by omega
      simp only [List.foldl_cons, hd]
      rw [hn]

theorem decodeDecimal_toDigits (n : Nat) : decodeDecimal (Nat.toDigits 10 n) = n := by
  unfold decodeDecimal Nat.toDigits
  rw [foldl_toDigitsCore (n + 1) n [] (Nat.lt_succ_self n)]
  rfl

theorem repr_injective (i j : Nat) (h : Nat.repr i = Nat.repr j) : i = j := by
  have hd : Nat.toDigits 10 i = Nat.toDigits 10 j := by
    have := congrArg String.data h
    simpa [Nat.repr, List.asString] using this
  have := congrArg decodeDecimal hd
  simpa [decodeDecimal_toDigits] using this

theorem Sprintf_SRIOV_Device_injective (i j : Nat)
    (h : Sprintf_SRIOV_Device i = Sprintf_SRIOV_Device j) : i = j := by
  apply repr_injective
  have hd := congrArg String.data h
  simp only [Sprintf_SRIOV_Device, String.data_append] at hd
  exact String.ext (List.append_cancel_left hd)

/-! ## Lemmas on `ListAndWatch` -/

theorem initialDevices_eq : initialDevices = (snapshot Health.Healthy).Devices := by
  simp only [initialDevices, snapshot, forLoop_fill]

theorem setHealth_getElem? (h : Health) (i : Nat) (L : List (Option Device)) (k : Nat) :
    (setHealth h i L)[k]? =
      if k = i then (L[k]?).map (Option.map (fun d => { d with Health := h })) else L[k]? := by
  unfold setHealth
  by_cases hk : k = i
  · subst hk
    rcases hL : L[k]? with _ | _ | d
    · simp [hL]
    · simp [hL]
    · have hlt : k < L.length := by
        rcases List.getElem?_eq_some.mp hL with ⟨hlt, _⟩
        exact hlt
      simp [List.getElem?_set, hlt]
  · have hik : ¬ i = k := fun e => hk e.symm
    rcases hL : L[i]? with _ | _ | d
    · simp [hk]
    · simp [hk]
    · simp [hk, hik, List.getElem?_set]

theorem forLoop_setHealth_getElem? (h : Health) (n : Nat) (L : List (Option Device))
    (k : Nat) :
    (forLoop n (fun i devices => setHealth h i devices) L)[k]? =
      if k < n then (L[k]?).map (Option.map (fun d => { d with Health := h })) else L[k]? := by
  induction n with
  | zero => simp [forLoop]
  | succ n ih =>
    rw [forLoop_succ, setHealth_getElem?, ih]
    by_cases hk : k = n
    · subst hk; simp
    · have h1 : k < n + 1 ↔ k < n := by omega
      simp [hk, h1]

theorem markAll_snapshot (h h0 : Health) :
    forLoop dummyDeviceCount (fun i devices => setHealth h i devices) (snapshot h0).Devices =
      (snapshot h).Devices := by
  apply List.ext_getElem?
  intro k
  rw [forLoop_setHealth_getElem?]
  by_cases hk : k < dummyDeviceCount
  · simp [hk, snapshot, List.getElem?_range]
  · have hk2 : dummyDeviceCount ≤ k := Nat.le_of_not_lt hk
    have h1 : ∀ x : Health, (snapshot x).Devices[k]? = none := fun x =>
      List.getElem?_eq_none (by simpa [snapshot] using hk2)
    simp [hk, h1]

theorem onStop_snapshot (s : Stream) (h0 : Health) (sent : List ListAndWatchResponse) :
    onStop s ((snapshot h0).Devices, sent) =
      ((snapshot Health.Unhealthy).Devices, sent ++ [snapshot Health.Unhealthy]) := by
  simp only [onStop, Send, markAll_snapshot]

theorem foldl_onStop (s : Stream) (stops : List Bool) :
    ∀ (h0 : Health) (sent : List ListAndWatchResponse),
      ((stops.foldl (fun st _ => onStop s st) ((snapshot h0).Devices, sent)).2 =
        sent ++ List.replicate stops.length (snapshot Health.Unhealthy)) := by
  induction stops with
  | nil => intro h0 sent; simp
  | cons b bs ih =>
    intro h0 sent
    rw [List.foldl_cons, onStop_snapshot, ih]
    simp [List.replicate_succ]

theorem ListAndWatch_sends (p : Plugin) (e : Option Empty) (s : Stream) :
    (ListAndWatch p e s).sends =
      snapshot Health.Healthy :: List.replicate p.stop.length (snapshot Health.Unhealthy) := by
  simp only [ListAndWatch, Send, initialDevices_eq]
  rw [foldl_onStop]
  simp only [List.nil_append, List.singleton_append]

theorem ListAndWatch_control (p : Plugin) (e : Option Empty) (s : Stream) :
    (ListAndWatch p e s).control = Control.blocked := rfl

theorem snapshot_getElem? (h : Health) (i : Nat) (hi : i < 10000) :
    (snapshot h).Devices[i]? = some (some { ID := Sprintf_SRIOV_Device i, Health := h }) := by
  have hi2 : i < dummyDeviceCount := hi
  simp [snapshot, List.getElem?_range, hi2]

theorem snapshot_length (h : Health) : (snapshot h).Devices.length = 10000 := by
  simp [snapshot, dummyDeviceCount]

/-! ## Properties of `Allocate` -/

/-- Claim C1: for every inventory and every batch in which every requested
device id is listed in the inventory with health Healthy, `Allocate` returns no
error and a response holding exactly as many container responses as the
batch has container requests, entry `i` being the answer to request `i`; the
empty batch yields the empty list of responses. -/
theorem Allocate_healthy_batch_succeeds (I : List Device) (p : Plugin) (ctx : Context)
    (m : AllocateRequest)
    (_hB : ∀ c, some c ∈ m.ContainerRequests → ∀ id ∈ c.DevicesIDs, healthyIn I id) :
    (Allocate p ctx (some m)).err = none ∧
    ∃ resp, (Allocate p ctx (some m)).resp = some resp ∧
      resp.ContainerResponses.length = m.ContainerRequests.length ∧
      (∀ i, i < m.ContainerRequests.length →
        resp.ContainerResponses[i]? = some (some fixedResponse)) ∧
      resp.ContainerResponses = m.ContainerRequests.map (fun _ => some fixedResponse) ∧
      (m.ContainerRequests = [] → resp.ContainerResponses = []) := by
  rw [Allocate_eq]
  have hg : GetContainerRequests (some m) = m.ContainerRequests := rfl
  rw [hg]
  refine ⟨rfl, _, rfl, ?_, ?_, ?_, ?_⟩
  · simp
  · intro i hi
    simp [List.getElem?_replicate, hi]
  · simp [List.eq_replicate_iff]
  · intro h
    simp [h]

/-- Instance of C1: the batch of two requests naming `d0` and then `d1`,
`d0`, all Healthy in the three-device inventory, gets two responses. -/
theorem Allocate_healthy_batch_succeeds_witness :
    (∀ c, some c ∈ exHealthyRequest.ContainerRequests →
      ∀ id ∈ c.DevicesIDs, healthyIn exInventory id) ∧
    (Allocate exIdlePlugin {} (some exHealthyRequest)).err = none ∧
    ∃ resp, (Allocate exIdlePlugin {} (some exHealthyRequest)).resp = some resp ∧
      resp.ContainerResponses.length = 2 ∧
      (∀ i, i < 2 → resp.ContainerResponses[i]? = some (some fixedResponse)) ∧
      resp.ContainerResponses = [some fixedResponse, some fixedResponse] ∧
      (exHealthyRequest.ContainerRequests = [] → resp.ContainerResponses = []) :=
  have hB : ∀ c, some c ∈ exHealthyRequest.ContainerRequests →
      ∀ id ∈ c.DevicesIDs, healthyIn exInventory id := by
    intro c hc id hid
    simp [exHealthyRequest] at hc
    rcases hc with rfl | rfl
    · simp at hid
      subst hid
      simp [healthyIn, exInventory]
    · simp at hid
      rcases hid with rfl | rfl <;> simp [healthyIn, exInventory]
  ⟨hB, Allocate_healthy_batch_succeeds exInventory exIdlePlugin {} exHealthyRequest hB⟩

/-- Claim C2 fails on the code: with inventory d0 Healthy, d1 Healthy, d2
Unhealthy and the batch naming d0 and then d1, d2, the batch names the
Unhealthy device d2, yet `Allocate` returns no error and two container
responses. -/
theorem Allocate_invalid_device_counterexample :
    ("d2" ∈ requestedIDs exBatch ∧ ¬ healthyIn exInventory "d2") ∧
    (Allocate exIdlePlugin {} exBatch).err = none ∧
    (Allocate exIdlePlugin {} exBatch).resp =
      some { ContainerResponses := [some fixedResponse, some fixedResponse] } := by
  refine ⟨⟨?_, ?_⟩, ?_, ?_⟩
  · simp [requestedIDs, GetContainerRequests, exBatch]
  · simp [healthyIn, exInventory]
  · rfl
  · rw [Allocate_eq]; rfl

/-- Claim C2 as amended: for every batch that names a device id absent from
the inventory or Unhealthy in it, `Allocate` does not check the id: it
returns no error and one container response per request, each the fixed
exposure. -/
theorem Allocate_ignores_invalid_devices (I : List Device) (p : Plugin) (ctx : Context)
    (r : Option AllocateRequest) (_hB : ∃ id ∈ requestedIDs r, ¬ healthyIn I id) :
    (Allocate p ctx r).err = none ∧
    (Allocate p ctx r).resp = some
      (AllocateResponse.mk
        (List.replicate (GetContainerRequests r).length (some fixedResponse))) := by
  rw [Allocate_eq]
  exact ⟨rfl, rfl⟩

/-- Instance of the amended C2 at the three-device inventory and the batch
naming the Unhealthy device d2. -/
theorem Allocate_ignores_invalid_devices_witness :
    (∃ id ∈ requestedIDs exBatch, ¬ healthyIn exInventory id) ∧
    (Allocate exStoppedOnce {} exBatch).err = none ∧
    (Allocate exStoppedOnce {} exBatch).resp = some
      (AllocateResponse.mk
        (List.replicate (GetContainerRequests exBatch).length (some fixedResponse))) :=
  have hB : ∃ id ∈ requestedIDs exBatch, ¬ healthyIn exInventory id :=
    ⟨"d2", by simp [requestedIDs, GetContainerRequests, exBatch],
      by simp [healthyIn, exInventory]⟩
  ⟨hB, Allocate_ignores_invalid_devices exInventory exStoppedOnce {} exBatch hB⟩

/-- Claim C3: for every batch and every index `i` within it, container
response `i` of `Allocate` holds exactly one device exposure, with host path
and container path both "/dev/infiniband" and permissions "rwm", and no
environment variable, mount or annotation. -/
theorem Allocate_response_fixed_exposure (p : Plugin) (ctx : Context)
    (r : Option AllocateRequest) (i : Nat) (hi : i < (GetContainerRequests r).length) :
    ∃ resp cr, (Allocate p ctx r).resp = some resp ∧
      resp.ContainerResponses[i]? = some (some cr) ∧
      cr.Devices = [{ HostPath := "/dev/infiniband", ContainerPath := "/dev/infiniband",
                      Permissions := "rwm" }] ∧
      cr.Envs = [] ∧ cr.Mounts = [] ∧ cr.Annotations = [] := by
  rw [Allocate_eq]
  refine ⟨_, fixedResponse, rfl, ?_, rfl, rfl, rfl, rfl⟩
  simp [List.getElem?_replicate, hi]

/-- Instance of C3: the second response for the two-request batch. -/
theorem Allocate_response_fixed_exposure_witness :
    1 < (GetContainerRequests exBatch).length ∧
    ∃ resp cr, (Allocate exIdlePlugin {} exBatch).resp = some resp ∧
      resp.ContainerResponses[1]? = some (some cr) ∧
      cr.Devices = [{ HostPath := "/dev/infiniband", ContainerPath := "/dev/infiniband",
                      Permissions := "rwm" }] ∧
      cr.Envs = [] ∧ cr.Mounts = [] ∧ cr.Annotations = [] :=
  ⟨by decide, Allocate_response_fixed_exposure exIdlePlugin {} exBatch 1 (by decide)⟩

/-- Claim C4: the result of `Allocate` depends on the number of container
requests only: for any two plugin states and any two batches with the same
number of container requests, whatever device ids they name, the returned
responses and errors are equal, and the plugin state is left as it was (so a
repeated call with the same batch returns the same result). -/
theorem Allocate_depends_on_batch_length_only (p1 p2 : Plugin) (ctx1 ctx2 : Context)
    (r1 r2 : Option AllocateRequest)
    (hlen : (GetContainerRequests r1).length = (GetContainerRequests r2).length) :
    (Allocate p1 ctx1 r1).resp = (Allocate p2 ctx2 r2).resp ∧
    (Allocate p1 ctx1 r1).err = (Allocate p2 ctx2 r2).err ∧
    (Allocate p1 ctx1 r1).plugin = p1 ∧
    (Allocate (Allocate p1 ctx1 r1).plugin ctx1 r1).resp = (Allocate p1 ctx1 r1).resp := by
  simp [Allocate_eq, hlen]

/-- Instance of C4: two batches of two requests naming different ids, on
plugins in different states. -/
theorem Allocate_depends_on_batch_length_only_witness :
    (GetContainerRequests exBatch).length = (GetContainerRequests exHealthyBatch).length ∧
    exBatch ≠ exHealthyBatch ∧
    (Allocate exIdlePlugin {} exBatch).resp = (Allocate exStoppedOnce {} exHealthyBatch).resp ∧
    (Allocate exIdlePlugin {} exBatch).err = (Allocate exStoppedOnce {} exHealthyBatch).err :=
  have h := Allocate_depends_on_batch_length_only exIdlePlugin exStoppedOnce {} {}
    exBatch exHealthyBatch (by decide)
  ⟨by decide, by decide, h.1, h.2.1⟩

/-! ## Properties of `ListAndWatch` -/

/-- Claim C5: the first message `ListAndWatch` hands to the stream is a full
snapshot of the synthetic inventory: it has exactly 10000 devices, and for
every `i` below 10000 device `i` has id "SRIOV-Device-" followed by the
decimal rendering of `i`, and health Healthy. -/
theorem ListAndWatch_first_send_full_snapshot (p : Plugin) (e : Option Empty) (s : Stream)
    (i : Nat) (hi : i < 10000) :
    ∃ m rest, (ListAndWatch p e s).sends = m :: rest ∧
      m.Devices.length = 10000 ∧
      m.Devices[i]? =
        some (some { ID := "SRIOV-Device-" ++ Nat.repr i, Health := Health.Healthy }) := by
  rw [ListAndWatch_sends]
  exact ⟨_, _, rfl, snapshot_length _, snapshot_getElem? _ i hi⟩

/-- Instance of C5: the last device of the first snapshot, on a stream whose
first send fails and with one stop signal delivered. -/
theorem ListAndWatch_first_send_full_snapshot_witness :
    9999 < 10000 ∧
    ∃ m rest, (ListAndWatch exStoppedOnce none brokenStream).sends = m :: rest ∧
      m.Devices.length = 10000 ∧
      m.Devices[9999]? =
        some (some { ID := "SRIOV-Device-9999", Health := Health.Healthy }) :=
  ⟨by decide,
    ListAndWatch_first_send_full_snapshot exStoppedOnce none brokenStream 9999 (by decide)⟩

/-- Claim C6: in every snapshot `ListAndWatch` hands to the stream (the
initial Healthy one and every all-Unhealthy one sent on a stop signal), the
devices at two different indices below 10000 are present and carry different
ids. -/
theorem ListAndWatch_snapshot_ids_distinct (p : Plugin) (e : Option Empty) (s : Stream)
    (m : ListAndWatchResponse) (hm : m ∈ (ListAndWatch p e s).sends)
    (i j : Nat) (hi : i < 10000) (hj : j < 10000) (hij : i ≠ j) :
    ∃ di dj, m.Devices[i]? = some (some di) ∧ m.Devices[j]? = some (some dj) ∧
      di.ID ≠ dj.ID := by
  rw [ListAndWatch_sends] at hm
  have hex : ∃ h, m = snapshot h := by
    rcases List.mem_cons.mp hm with h1 | h2
    · exact ⟨_, h1⟩
    · exact ⟨_, (List.mem_replicate.mp h2).2⟩
  obtain ⟨h, rfl⟩ := hex
  refine ⟨_, _, snapshot_getElem? h i hi, snapshot_getElem? h j hj, ?_⟩
  intro heq
  exact hij (Sprintf_SRIOV_Device_injective i j heq)

/-- Instance of C6: devices 7 and 4321 of the all-Unhealthy snapshot sent
after one stop signal. -/
theorem ListAndWatch_snapshot_ids_distinct_witness :
    snapshot Health.Unhealthy ∈ (ListAndWatch exStoppedOnce none okStream).sends ∧
    ∃ di dj, (snapshot Health.Unhealthy).Devices[7]? = some (some di) ∧
      (snapshot Health.Unhealthy).Devices[4321]? = some (some dj) ∧ di.ID ≠ dj.ID :=
  have hm : snapshot Health.Unhealthy ∈ (ListAndWatch exStoppedOnce none okStream).sends := by
    rw [ListAndWatch_sends]
    simp [exStoppedOnce]
  ⟨hm, ListAndWatch_snapshot_ids_distinct exStoppedOnce none okStream _ hm 7 4321
    (by decide) (by decide) (by decide)⟩

/-- Claim C7 fails on the code: when two stop signals are delivered, the
stream is handed the initial snapshot and then two all-Unhealthy snapshots,
so a send follows the first all-Unhealthy snapshot, and the handler has not
returned: it is blocked waiting for a further signal. -/
theorem ListAndWatch_stop_counterexample :
    (ListAndWatch exStoppedTwice none okStream).sends =
      [snapshot Health.Healthy, snapshot Health.Unhealthy, snapshot Health.Unhealthy] ∧
    ¬ ((ListAndWatch exStoppedTwice none okStream).sends.drop 1).length ≤ 1 ∧
    ¬ ∃ err, (ListAndWatch exStoppedTwice none okStream).control = Control.returned err := by
  rw [ListAndWatch_sends, ListAndWatch_control]
  refine ⟨rfl, ?_, ?_⟩
  · simp [exStoppedTwice]
  · simp

/-- Claim C7 as amended: every stop signal received makes `ListAndWatch`
send one snapshot marking all devices Unhealthy, after which it waits for the
next signal and never returns; after `k` stop signals the messages sent are
the initial Healthy snapshot followed by `k` all-Unhealthy snapshots. -/
theorem ListAndWatch_one_send_per_stop (p : Plugin) (e : Option Empty) (s : Stream) :
    (ListAndWatch p e s).sends =
      snapshot Health.Healthy :: List.replicate p.stop.length (snapshot Health.Unhealthy) ∧
    (ListAndWatch p e s).sends.length = p.stop.length + 1 ∧
    (ListAndWatch p e s).control = Control.blocked ∧
    ∀ err, (ListAndWatch p e s).control ≠ Control.returned err := by
  rw [ListAndWatch_sends, ListAndWatch_control]
  refine ⟨rfl, ?_, rfl, ?_⟩
  · simp
  · intro err h
    cases h

/-- Claim C8 fails on the code: on a stream whose first send returns an
error, with one stop signal delivered, the handler has not returned and a
second message has been handed to the stream after the failed one. -/
theorem ListAndWatch_send_failure_counterexample :
    brokenStream.sendErr 0 ≠ none ∧
    (ListAndWatch exStoppedOnce none brokenStream).sends =
      [snapshot Health.Healthy, snapshot Health.Unhealthy] ∧
    ¬ ∃ err, (ListAndWatch exStoppedOnce none brokenStream).control = Control.returned err := by
  rw [ListAndWatch_sends, ListAndWatch_control]
  refine ⟨?_, rfl, ?_⟩
  · simp [brokenStream]
  · simp

/-- Claim C8 as amended: if call number `k` of `Send` returns an error, the
error is discarded: `ListAndWatch` does not return, and it still hands one
further message to the stream for each stop signal received after that call;
the messages sent are those sent on a stream that never fails. -/
theorem ListAndWatch_ignores_send_failure (p : Plugin) (e : Option Empty) (s : Stream)
    (k : Nat) (_hk : k ≤ p.stop.length) (_hfail : s.sendErr k ≠ none) :
    (ListAndWatch p e s).control = Control.blocked ∧
    ((ListAndWatch p e s).sends.drop (k + 1)).length = p.stop.length - k ∧
    (ListAndWatch p e s).sends = (ListAndWatch p e okStream).sends := by
  rw [ListAndWatch_sends, ListAndWatch_sends, ListAndWatch_control]
  refine ⟨rfl, ?_, rfl⟩
  simp

/-- Instance of the amended C8: the first send fails and one stop signal is
delivered afterwards. -/
theorem ListAndWatch_ignores_send_failure_witness :
    (0 ≤ exStoppedOnce.stop.length ∧ brokenStream.sendErr 0 ≠ none) ∧
    (ListAndWatch exStoppedOnce none brokenStream).control = Control.blocked ∧
    ((ListAndWatch exStoppedOnce none brokenStream).sends.drop (0 + 1)).length =
      exStoppedOnce.stop.length - 0 ∧
    (ListAndWatch exStoppedOnce none brokenStream).sends =
      (ListAndWatch exStoppedOnce none okStream).sends :=
  ⟨⟨by decide, by simp [brokenStream]⟩,
    ListAndWatch_ignores_send_failure exStoppedOnce none brokenStream 0 (by decide)
      (by simp [brokenStream])⟩

/-! ## Properties of the capability and pre-start handlers -/

/-- Claim C9: for every plugin state and every request,
`GetDevicePluginOptions` returns no error and an options message whose
`PreStartRequired` flag is false. -/
theorem GetDevicePluginOptions_preStart_not_required (p : Plugin) (ctx : Context)
    (e : Option Empty) :
    (GetDevicePluginOptions p ctx e).err = none ∧
    ∃ o, (GetDevicePluginOptions p ctx e).resp = some o ∧ o.PreStartRequired = false :=
  ⟨rfl, _, rfl, rfl⟩

/-- Claim C10: for every request, whatever device ids it lists,
`PreStartContainer` returns the empty acknowledgment and no error, and the
plugin state after the call is the state before it. -/
theorem PreStartContainer_is_noop (p : Plugin) (ctx : Context)
    (r : Option PreStartContainerRequest) :
    (PreStartContainer p ctx r).resp = some {} ∧
    (PreStartContainer p ctx r).err = none ∧
    (PreStartContainer p ctx r).plugin = p :=
  ⟨rfl, rfl, rfl⟩

end RdmaDummy
